import Mathlib

/-!
# Trebal API — Value Distribution & Lifecycle Rules Engine

Shallow embedding of `src/constitution.js` and of the certificate state
machine encoded by the Express request handlers of the API layer
(`/nft/gift`, `/collab/nft/stack`, `/collab/nft/cashout`,
`/collab/nft/sponsorship-convert`).

Modelling conventions:
* All monetary amounts are integers in the smallest currency unit, so they
  are embedded as `Nat`.  JavaScript computes `Math.floor(uv * 0.30)` on
  doubles; on the safe-integer range these percentage computations agree
  with exact integer arithmetic, so `Math.floor(uv * p)` for a percentage
  `p` is embedded as `uv * p100 / 100` with `p100` the percentage scaled
  to an integer out of 100 (0.30 ↦ 30, and so on).
* `Math.round(faceValue * 0.10)` rounds half away from zero on a float
  product; it is embedded as `(faceValue + 5) / 10`.  Every value of the
  face-value ladder is a multiple of 10, so on every input that passes the
  ladder guard the two agree exactly (no tie is ever hit).
* Thrown errors (`throw new Error("...")`) become `Except Err` results;
  the constructors of `Err` carry the spec-level names, documented with
  the literal strings the source throws / the API returns.
-/

namespace Trebal

/-- Error kinds of the engine.  Constructor ↔ source string:
`FaceValueNotAllowed` ↔ `FACE_VALUE_NOT_ALLOWED`,
`InvalidBatchCount` ↔ `INVALID_BATCH_COUNT`,
`SellerClassNotPermitted` ↔ `SELLER_CLASS_E_NOT_PERMITTED`,
`NftNotFound` ↔ `NFT_NOT_FOUND`, `NotOwner` ↔ `NOT_OWNER`,
`CertificateRetired` ↔ `NFT_RETIRED`,
`InvalidCounterparty` ↔ `INVALID_COLLABORATOR` / `INVALID_SELLER`,
`CapacityExceeded` ↔ `COLLABORATOR_NFT_CAP_REACHED`. -/
inductive Err where
  | FaceValueNotAllowed
  | InvalidBatchCount
  | SellerClassNotPermitted
  | NftNotFound
  | NotOwner
  | CertificateRetired
  | InvalidCounterparty
  | CapacityExceeded
deriving DecidableEq, Repr

deriving instance DecidableEq for Except

/-- `NFT_FACE_VALUE_LADDER` from `src/constitution.js`. -/
def NFT_FACE_VALUE_LADDER : List Nat :=
  [250, 500, 1000, 2000, 4000, 8000, 15000, 30000, 60000, 120000,
   220000, 380000, 600000, 850000, 1000000]

/-- `assertFaceValueAllowed(value)`:
throws `FACE_VALUE_NOT_ALLOWED` when `value` is not in the ladder. -/
def assertFaceValueAllowed (value : Nat) : Except Err Unit :=
  if NFT_FACE_VALUE_LADDER.contains value then Except.ok ()
  else Except.error Err.FaceValueNotAllowed

/-- Result record `{ lv, uv }` of `splitLvUv`. -/
structure ValueSplit where
  lv : Nat
  uv : Nat
deriving DecidableEq, Repr

/-- Embedding of `Math.round(faceValue * LV_RATE)` with `LV_RATE = 0.10`:
round half away from zero of `faceValue / 10`.  On every ladder value
(all multiples of 10) this agrees exactly with the double-precision
computation of the source. -/
def roundLv (faceValue : Nat) : Nat := (faceValue + 5) / 10

/-- `splitLvUv(faceValue)` from `src/constitution.js`: the assertion
throws (propagated as the error branch), otherwise the split is returned. -/
def splitLvUv (faceValue : Nat) : Except Err ValueSplit :=
  match assertFaceValueAllowed faceValue with
  | Except.error e => Except.error e
  | Except.ok _ =>
    let lv := roundLv faceValue
    Except.ok { lv := lv, uv := faceValue - lv }

/-- One row of `CASH_OUT_TABLE`; percentages scaled to integers out of 100
(0.30 ↦ 30 …). -/
structure CashRow where
  collaboratorUvPct : Nat
  trebalUvPct : Nat
deriving DecidableEq, Repr

/-- `CASH_OUT_TABLE` from `src/constitution.js`: the object lookup
`CASH_OUT_TABLE[batchCount]` yields `undefined` (here `none`) outside
keys 1..5. -/
def CASH_OUT_TABLE (batchCount : Nat) : Option CashRow :=
  match batchCount with
  | 1 => some { collaboratorUvPct := 30, trebalUvPct := 70 }
  | 2 => some { collaboratorUvPct := 35, trebalUvPct := 65 }
  | 3 => some { collaboratorUvPct := 40, trebalUvPct := 60 }
  | 4 => some { collaboratorUvPct := 45, trebalUvPct := 55 }
  | 5 => some { collaboratorUvPct := 50, trebalUvPct := 50 }
  | _ => none

/-- Result record `{ collaboratorPayout, trebalCapture }` of `cashOutSplit`. -/
structure CashOutResult where
  collaboratorPayout : Nat
  trebalCapture : Nat
deriving DecidableEq, Repr

/-- `cashOutSplit(batchCount, uv)` from `src/constitution.js`. -/
def cashOutSplit (batchCount uv : Nat) : Except Err CashOutResult :=
  match CASH_OUT_TABLE batchCount with
  | none => Except.error Err.InvalidBatchCount
  | some row =>
    let collaboratorPayout := uv * row.collaboratorUvPct / 100
    let trebalCapture := uv - collaboratorPayout
    Except.ok { collaboratorPayout := collaboratorPayout, trebalCapture := trebalCapture }

/-- Result record `{ collaborator, seller, retained }` of `sponsorshipSplit`. -/
structure SponsorshipResult where
  collaborator : Nat
  seller : Nat
  retained : Nat
deriving DecidableEq, Repr

/-- `sponsorshipSplit(uv)` from `src/constitution.js`:
`Math.floor(uv*0.50)`, `Math.floor(uv*0.25)`, remainder retained. -/
def sponsorshipSplit (uv : Nat) : SponsorshipResult :=
  let collaborator := uv * 50 / 100
  let seller := uv * 25 / 100
  let retained := uv - collaborator - seller
  { collaborator := collaborator, seller := seller, retained := retained }

/-- Result record `{ platformFee, discountPool }`. -/
structure InternalAllocation where
  platformFee : Nat
  discountPool : Nat
deriving DecidableEq, Repr

/-- `distributionInternalAllocationFromUv(uvOriginal)` from
`src/constitution.js`: both fields are computed from the argument
`uvOriginal`, the full usable value. -/
def distributionInternalAllocationFromUv (uvOriginal : Nat) : InternalAllocation :=
  { platformFee := uvOriginal * 10 / 100, discountPool := uvOriginal * 15 / 100 }

/-- `computeSellerClass(sem)` from `src/constitution.js`. -/
def computeSellerClass (sem : Int) : String :=
  if 300 ≤ sem then "A"
  else if 150 ≤ sem then "B"
  else if 80 ≤ sem then "C"
  else if 40 ≤ sem then "D"
  else "E"

/-- `assertSellerCanDistribute(sellerClass)` from `src/constitution.js`. -/
def assertSellerCanDistribute (sellerClass : String) : Except Err Unit :=
  if sellerClass = "E" then Except.error Err.SellerClassNotPermitted
  else Except.ok ()

/-- Reference threshold definition of the seller class, written with the
non-overlapping interval conditions of the spec: A when sem ≥ 300,
B when 150 ≤ sem < 300, C when 80 ≤ sem < 150, D when 40 ≤ sem < 80,
E when sem < 40.  Stated from the spec to be compared with
`computeSellerClass`. -/
def sellerClassSpec (sem : Int) : String :=
  if 300 ≤ sem then "A"
  else if 150 ≤ sem ∧ sem < 300 then "B"
  else if 80 ≤ sem ∧ sem < 150 then "C"
  else if 40 ≤ sem ∧ sem < 80 then "D"
  else "E"

/-! ## Certificate state machine (Express handlers of the API layer)

The lifecycle is encoded ad hoc in the request handlers.  Each handler is
embedded as a pure function over a database snapshot; Prisma lookups become
list lookups, and the transactional update becomes the `Except.ok` result
(an error result returns no updated store, so the certificate is
unchanged exactly when the handler fails). -/

/-- User roles (`roles` array of the `user` rows). -/
inductive Role where
  | CUSTOMER
  | COLLABORATOR
  | SELLER
  | ADMIN
deriving DecidableEq, Repr

/-- Certificate states (`state` field of the `nft` rows). -/
inductive NftState where
  | GIFT
  | STACKED
  | DISTRIBUTION
  | RETIRED
deriving DecidableEq, Repr

/-- A certificate row (`nft` table). -/
structure Nft where
  id : Nat
  faceValue : Nat
  lockedValue : Nat
  usableValue : Nat
  state : NftState
  ownerId : Nat
  giftedFromId : Option Nat := none
  distributionRemainingValue : Option Nat := none
deriving DecidableEq, Repr

/-- A user row (`user` table). -/
structure User where
  id : Nat
  roles : List Role
deriving DecidableEq, Repr

/-- Database snapshot the handlers read and update. -/
structure Db where
  nfts : List Nft
  users : List User
deriving DecidableEq, Repr

/-- `prisma.nft.findUnique({ where: { id } })`. -/
def findNft (db : Db) (nftId : Nat) : Option Nft :=
  db.nfts.find? (fun n => n.id == nftId)

/-- `prisma.user.findUnique({ where: { id } })`. -/
def findUser (db : Db) (userId : Nat) : Option User :=
  db.users.find? (fun u => u.id == userId)

/-- `prisma.nft.count({ where: { ownerId, state: { not: "RETIRED" } } })`. -/
def activeCount (db : Db) (ownerId : Nat) : Nat :=
  (db.nfts.filter (fun n => n.ownerId == ownerId && n.state != NftState.RETIRED)).length

/-- `prisma.nft.update({ where: { id } , data })`. -/
def updateNft (db : Db) (nftId : Nat) (f : Nft → Nft) : Db :=
  { db with nfts := db.nfts.map (fun n => if n.id == nftId then f n else n) }

/-- `POST /nft/gift` handler.  Check order as in the source:
NFT found, caller owns it, target exists and holds COLLABORATOR,
target's active (non-RETIRED) certificate count below 5; then ownership
is reassigned, `giftedFromId` recorded, state set to `GIFT`.
The source performs no RETIRED check in this handler. -/
def giftHandler (db : Db) (callerId nftId collaboratorId : Nat) : Except Err Db :=
  match findNft db nftId with
  | none => Except.error Err.NftNotFound
  | some nft =>
    if nft.ownerId ≠ callerId then Except.error Err.NotOwner
    else
      match findUser db collaboratorId with
      | none => Except.error Err.InvalidCounterparty
      | some collaborator =>
        if ¬ collaborator.roles.contains Role.COLLABORATOR then
          Except.error Err.InvalidCounterparty
        else if 5 ≤ activeCount db collaboratorId then
          Except.error Err.CapacityExceeded
        else
          Except.ok (updateNft db nftId (fun n =>
            { n with ownerId := collaboratorId,
                     giftedFromId := some callerId,
                     state := NftState.GIFT }))

/-- `POST /collab/nft/stack` handler. -/
def stackHandler (db : Db) (callerId nftId : Nat) : Except Err Db :=
  match findNft db nftId with
  | none => Except.error Err.NftNotFound
  | some nft =>
    if nft.ownerId ≠ callerId then Except.error Err.NotOwner
    else if nft.state = NftState.RETIRED then Except.error Err.CertificateRetired
    else Except.ok (updateNft db nftId (fun n => { n with state := NftState.STACKED }))

/-- `POST /collab/nft/cashout` handler: validates ownership and the
RETIRED guard, computes `cashOutSplit` against the current usable value,
then freezes the certificate in state RETIRED. -/
def cashOutHandler (db : Db) (callerId nftId batchCount : Nat) :
    Except Err (Db × CashOutResult) :=
  match findNft db nftId with
  | none => Except.error Err.NftNotFound
  | some nft =>
    if nft.ownerId ≠ callerId then Except.error Err.NotOwner
    else if nft.state = NftState.RETIRED then Except.error Err.CertificateRetired
    else
      match cashOutSplit batchCount nft.usableValue with
      | Except.error e => Except.error e
      | Except.ok payout =>
        Except.ok (updateNft db nftId (fun n => { n with state := NftState.RETIRED }), payout)

/-- `POST /collab/nft/sponsorship-convert` handler.  Check order as in the
source: NFT found, seller exists and holds SELLER, caller owns the NFT,
NFT not RETIRED; then `sponsorshipSplit` and the internal allocation are
computed from the current usable value, ownership moves to the seller and
`distributionRemainingValue` is set to `retained`. -/
def sponsorshipConvertHandler (db : Db) (callerId nftId sellerId : Nat) : Except Err Db :=
  match findNft db nftId with
  | none => Except.error Err.NftNotFound
  | some nft =>
    match findUser db sellerId with
    | none => Except.error Err.InvalidCounterparty
    | some seller =>
      if ¬ seller.roles.contains Role.SELLER then Except.error Err.InvalidCounterparty
      else if nft.ownerId ≠ callerId then Except.error Err.NotOwner
      else if nft.state = NftState.RETIRED then Except.error Err.CertificateRetired
      else
        let split := sponsorshipSplit nft.usableValue
        Except.ok (updateNft db nftId (fun n =>
          { n with state := NftState.DISTRIBUTION,
                   ownerId := sellerId,
                   distributionRemainingValue := some split.retained }))

/-! ## Theorems -/

/-- Claim C2: for every face value `f` in the 15-value ladder, `splitLvUv f`
succeeds and returns the pair with `lv = round(f * 0.10)` and `uv = f - lv`,
and `lv + uv = f`; for every `f` not in the ladder it fails with
`FaceValueNotAllowed`. -/
theorem splitLvUv_spec (f : Nat) :
    (f ∈ NFT_FACE_VALUE_LADDER →
      splitLvUv f = Except.ok { lv := roundLv f, uv := f - roundLv f } ∧
      roundLv f + (f - roundLv f) = f) ∧
    (f ∉ NFT_FACE_VALUE_LADDER →
      splitLvUv f = Except.error Err.FaceValueNotAllowed) := by
  constructor
  · intro hf
    constructor
    · simp [splitLvUv, assertFaceValueAllowed, hf]
    · have : roundLv f ≤ f := by unfold roundLv; omega
      omega
  · intro hf
    simp [splitLvUv, assertFaceValueAllowed, hf]

/-- Witness for C2 at the concrete face values 1000 (allowed) and
777 (not in the ladder). -/
theorem splitLvUv_spec_witness :
    splitLvUv 1000 = Except.ok { lv := 100, uv := 900 } ∧
    splitLvUv 777 = Except.error Err.FaceValueNotAllowed := by
  constructor
  · have h := (splitLvUv_spec 1000).1 (by decide)
    simpa using h.1
  · exact (splitLvUv_spec 777).2 (by decide)

/-- Claim C3: for every `batchCount` in 1..5 and every `uv`,
`cashOutSplit batchCount uv` succeeds with
`collaboratorPayout = floor(uv * collaboratorUvPct)` taken from the table
row, `trebalCapture = uv - collaboratorPayout`, and the two parts sum to
`uv` exactly; outside 1..5 it fails with `InvalidBatchCount`. -/
theorem cashOutSplit_spec (batchCount uv : Nat) :
    (1 ≤ batchCount ∧ batchCount ≤ 5 →
      ∃ row, CASH_OUT_TABLE batchCount = some row ∧
        cashOutSplit batchCount uv =
          Except.ok { collaboratorPayout := uv * row.collaboratorUvPct / 100,
                      trebalCapture := uv - uv * row.collaboratorUvPct / 100 } ∧
        uv * row.collaboratorUvPct / 100 +
          (uv - uv * row.collaboratorUvPct / 100) = uv) ∧
    (¬(1 ≤ batchCount ∧ batchCount ≤ 5) →
      cashOutSplit batchCount uv = Except.error Err.InvalidBatchCount) := by
  constructor
  · rintro ⟨h1, h5⟩
    interval_cases batchCount <;> exact ⟨_, rfl, rfl, by simp only [CASH_OUT_TABLE]; omega⟩
  · intro h
    have hnone : CASH_OUT_TABLE batchCount = none := by
      match batchCount with
      | 0 => rfl
      | 1 | 2 | 3 | 4 | 5 => exact absurd (by omega) h
      | (n + 6) => rfl
    simp [cashOutSplit, hnone]

/-- Witness for C3 at `batchCount = 1, uv = 900` (payout 270 / 630) and at
the invalid `batchCount = 7`. -/
theorem cashOutSplit_spec_witness :
    cashOutSplit 1 900 = Except.ok { collaboratorPayout := 270, trebalCapture := 630 } ∧
    cashOutSplit 7 900 = Except.error Err.InvalidBatchCount := by
  constructor
  · obtain ⟨row, hrow, heq, -⟩ := (cashOutSplit_spec 1 900).1 (by omega)
    rw [show CASH_OUT_TABLE 1 = some { collaboratorUvPct := 30, trebalUvPct := 70 } from rfl]
      at hrow
    cases hrow
    exact heq
  · exact (cashOutSplit_spec 7 900).2 (by omega)

/-- Claim C4: for every fixed `uv`, the collaborator payout of
`cashOutSplit` is monotone non-decreasing in `batchCount` over 1..5. -/
theorem cashOutSplit_monotone (b1 b2 uv : Nat)
    (h1 : 1 ≤ b1) (h12 : b1 ≤ b2) (h2 : b2 ≤ 5)
    (r1 r2 : CashOutResult)
    (e1 : cashOutSplit b1 uv = Except.ok r1)
    (e2 : cashOutSplit b2 uv = Except.ok r2) :
    r1.collaboratorPayout ≤ r2.collaboratorPayout := by
  have hb1 : b1 ≤ 5 := le_trans h12 h2
  have hb2 : 1 ≤ b2 := le_trans h1 h12
  interval_cases b1 <;> interval_cases b2 <;>
    simp only [cashOutSplit, CASH_OUT_TABLE, Except.ok.injEq] at e1 e2 <;>
    subst e1 <;> subst e2 <;> simp only [] <;> omega

/-- Witness for C4 at `b1 = 1, b2 = 5, uv = 900`: payout 270 ≤ 450. -/
theorem cashOutSplit_monotone_witness :
    ({ collaboratorPayout := 270, trebalCapture := 630 } : CashOutResult).collaboratorPayout ≤
    ({ collaboratorPayout := 450, trebalCapture := 450 } : CashOutResult).collaboratorPayout :=
  cashOutSplit_monotone 1 5 900 (by decide) (by decide) (by decide)
    { collaboratorPayout := 270, trebalCapture := 630 }
    { collaboratorPayout := 450, trebalCapture := 450 }
    (by decide) (by decide)

/-- Claim C5: for every `uv`, `sponsorshipSplit uv` returns
`collaborator = floor(uv * 0.50)`, `seller = floor(uv * 0.25)` and
`retained = uv - collaborator - seller`, and the three parts sum to `uv`
exactly. -/
theorem sponsorshipSplit_spec (uv : Nat) :
    sponsorshipSplit uv =
      { collaborator := uv * 50 / 100, seller := uv * 25 / 100,
        retained := uv - uv * 50 / 100 - uv * 25 / 100 } ∧
    (sponsorshipSplit uv).collaborator + (sponsorshipSplit uv).seller +
      (sponsorshipSplit uv).retained = uv := by
  refine ⟨rfl, ?_⟩
  simp only [sponsorshipSplit]
  omega

/-- Claim C6: `computeSellerClass` (a total function on `Int`) agrees with
the reference threshold definition `sellerClassSpec` with boundaries at
300/150/80/40, and in particular maps 300 to A, 79 to D, 39 to E. -/
theorem computeSellerClass_spec :
    (∀ sem : Int, computeSellerClass sem = sellerClassSpec sem) ∧
    computeSellerClass 300 = "A" ∧
    computeSellerClass 79 = "D" ∧
    computeSellerClass 39 = "E" := by
  refine ⟨?_, by decide, by decide, by decide⟩
  intro sem
  unfold computeSellerClass sellerClassSpec
  split_ifs <;> first | rfl | (exfalso; omega)

/-- Claim C7: for every `uv`, `distributionInternalAllocationFromUv uv`
returns `platformFee = floor(uv * 0.10)` and
`discountPool = floor(uv * 0.15)`, computed from the full usable value
`uv`: at `uv = 900` it yields `{90, 135}` while the retained remainder of
`sponsorshipSplit 900` is 225, from which the allocation would have been
`{22, 33}`. -/
theorem distributionInternalAllocationFromUv_spec :
    (∀ uv : Nat, distributionInternalAllocationFromUv uv =
      { platformFee := uv * 10 / 100, discountPool := uv * 15 / 100 }) ∧
    distributionInternalAllocationFromUv 900 =
      { platformFee := 90, discountPool := 135 } ∧
    (sponsorshipSplit 900).retained = 225 ∧
    distributionInternalAllocationFromUv (sponsorshipSplit 900).retained =
      { platformFee := 22, discountPool := 33 } := by
  exact ⟨fun uv => rfl, by decide, by decide, by decide⟩

/-- Claim C9: every face value of the ladder is divisible by 10, so the
rounding in the LV computation never breaks a tie and `lv` is exactly
`f / 10` (10% of the face value). -/
theorem ladder_lv_exact_tenth :
    ∀ f ∈ NFT_FACE_VALUE_LADDER,
      f % 10 = 0 ∧ roundLv f = f / 10 ∧
      splitLvUv f = Except.ok { lv := f / 10, uv := f - f / 10 } := by
  decide

/-- Witness for C9 at the concrete ladder value 1000. -/
theorem ladder_lv_exact_tenth_witness :
    1000 ∈ NFT_FACE_VALUE_LADDER ∧
    (1000 % 10 = 0 ∧ roundLv 1000 = 1000 / 10 ∧
      splitLvUv 1000 = Except.ok { lv := 1000 / 10, uv := 1000 - 1000 / 10 }) :=
  ⟨by decide, ladder_lv_exact_tenth 1000 (by decide)⟩

/-- Claim C10: for every `uv`, the retained remainder of
`sponsorshipSplit uv` is at least the sum of the platform fee and the
discount pool of `distributionInternalAllocationFromUv uv`: the
informational sub-allocations always fit inside the retained value. -/
theorem retained_covers_internal_allocation (uv : Nat) :
    (distributionInternalAllocationFromUv uv).platformFee +
      (distributionInternalAllocationFromUv uv).discountPool ≤
    (sponsorshipSplit uv).retained := by
  simp only [distributionInternalAllocationFromUv, sponsorshipSplit]
  omega

/-- A database holding one RETIRED certificate (id 1, owned by user 1)
and one user of each counterparty role. -/
def retiredDb : Db :=
  { nfts := [{ id := 1, faceValue := 1000, lockedValue := 100, usableValue := 900,
               state := NftState.RETIRED, ownerId := 1 }],
    users := [{ id := 1, roles := [Role.CUSTOMER] },
              { id := 2, roles := [Role.COLLABORATOR] },
              { id := 3, roles := [Role.SELLER] }] }

/-- Claim C1 — refuted by the source: on a RETIRED certificate the stack,
cash-out and sponsorship-convert handlers do fail with
`CertificateRetired`, but the gift handler performs no RETIRED check: the
gift of the RETIRED certificate succeeds, reassigning ownership to the
collaborator, recording `giftedFromId` and resetting the state to GIFT,
instead of failing and leaving the certificate unchanged. -/
theorem retired_gift_not_rejected :
    stackHandler retiredDb 1 1 = Except.error Err.CertificateRetired ∧
    cashOutHandler retiredDb 1 1 3 = Except.error Err.CertificateRetired ∧
    sponsorshipConvertHandler retiredDb 1 1 3 = Except.error Err.CertificateRetired ∧
    giftHandler retiredDb 1 1 2 =
      Except.ok
        { nfts := [{ id := 1, faceValue := 1000, lockedValue := 100, usableValue := 900,
                     state := NftState.GIFT, ownerId := 2, giftedFromId := some 1 }],
          users := [{ id := 1, roles := [Role.CUSTOMER] },
                    { id := 2, roles := [Role.COLLABORATOR] },
                    { id := 3, roles := [Role.SELLER] }] } := by
  refine ⟨rfl, rfl, rfl, rfl⟩

/-- Claim C8: whenever the gift preconditions up to the capacity check
hold (certificate found, caller owns it, target is a COLLABORATOR) and
the target already owns 5 or more non-RETIRED certificates, the gift
handler fails with `CapacityExceeded`; an error result carries no updated
store, so the certificate's owner, state and `giftedFromId` are
unchanged. -/
theorem gift_capacity_exceeded (db : Db) (callerId nftId collaboratorId : Nat)
    (nft : Nft) (hfind : findNft db nftId = some nft)
    (hown : nft.ownerId = callerId)
    (collab : User) (hcollab : findUser db collaboratorId = some collab)
    (hrole : collab.roles.contains Role.COLLABORATOR = true)
    (hcap : 5 ≤ activeCount db collaboratorId) :
    giftHandler db callerId nftId collaboratorId = Except.error Err.CapacityExceeded := by
  unfold giftHandler
  rw [hfind, hcollab]
  simp [hown, hcap]
  exact List.elem_iff.mp hrole

/-- A database where collaborator 2 already owns five active (non-RETIRED)
certificates and customer 1 owns certificate 20. -/
def giftCapDb : Db :=
  { nfts := [{ id := 10, faceValue := 1000, lockedValue := 100, usableValue := 900,
               state := NftState.GIFT, ownerId := 2 },
             { id := 11, faceValue := 1000, lockedValue := 100, usableValue := 900,
               state := NftState.GIFT, ownerId := 2 },
             { id := 12, faceValue := 1000, lockedValue := 100, usableValue := 900,
               state := NftState.STACKED, ownerId := 2 },
             { id := 13, faceValue := 1000, lockedValue := 100, usableValue := 900,
               state := NftState.STACKED, ownerId := 2 },
             { id := 14, faceValue := 1000, lockedValue := 100, usableValue := 900,
               state := NftState.GIFT, ownerId := 2 },
             { id := 20, faceValue := 1000, lockedValue := 100, usableValue := 900,
               state := NftState.GIFT, ownerId := 1 }],
    users := [{ id := 1, roles := [Role.CUSTOMER] },
              { id := 2, roles := [Role.COLLABORATOR] }] }

/-- Witness for C8: gifting certificate 20 to collaborator 2, who already
holds five active certificates, fails with `CapacityExceeded`. -/
theorem gift_capacity_exceeded_witness :
    giftHandler giftCapDb 1 20 2 = Except.error Err.CapacityExceeded :=
  gift_capacity_exceeded giftCapDb 1 20 2
    { id := 20, faceValue := 1000, lockedValue := 100, usableValue := 900,
      state := NftState.GIFT, ownerId := 1 }
    (by decide) rfl
    { id := 2, roles := [Role.COLLABORATOR] }
    (by decide) rfl (by decide)

end Trebal
